import Mathlib

/-!
Verification of the inventory-forecasting core of the repository
(the per-item computation in scripts/forecast_inventory.py, and the
batch pipeline around it).

Quantities, stock levels and rates are modelled as rationals.  Dates and
timestamps are modelled as rationals counting days since an arbitrary
epoch, so that a whole number is midnight of a calendar day and the SQL
string comparison of a full timestamp against a date string
(strftime of one_year_ago) becomes comparison against the floor of
the reference instant minus 365.
-/

namespace Inventory

/-- A row of the items table: id, name, category, current_stock,
min_stock, unit (forecast_inventory.py, items query). -/
structure Item where
  id : Nat
  name : String
  category : String
  current_stock : ℚ
  min_stock : ℚ
  unit : String
deriving DecidableEq

/-- A row of the inventory_transactions table, with the date as
rational days since the epoch. -/
structure InventoryTransaction where
  item_id : Nat
  transaction_type : String
  quantity : ℚ
  transaction_date : ℚ
deriving DecidableEq

/-- Python int() applied to a rational: truncation toward zero. -/
def intTrunc (q : ℚ) : ℤ :=
  if 0 ≤ q then ⌊q⌋ else ⌈q⌉

/-- Python round() applied to a rational: round half to even. -/
def pythonRound (q : ℚ) : ℤ :=
  let f := ⌊q⌋
  let r := q - f
  if r < 1/2 then f
  else if 1/2 < r then f + 1
  else if Even f then f else f + 1

/-- The lower bound of the consumption lookback: the script computes
one_year_ago = now - 365 days and renders it with strftime as a bare
date, so the effective bound is midnight of that calendar day, the
floor in the days-since-epoch model. -/
def windowStart (ref : ℚ) : ℤ :=
  ⌊ref - 365⌋

/-- Does a transaction row match the consumption query for an item?
The WHERE clause keeps item_id, transaction_type issue, and
transaction_date at or after the date-string bound.  There is no upper
bound on the date in the query. -/
def issueMatch (t : InventoryTransaction) (id0 : Nat) (ref : ℚ) : Bool :=
  t.item_id == id0 && t.transaction_type == "issue" &&
    decide ((windowStart ref : ℚ) ≤ t.transaction_date)

/-- SUM(quantity) over the matching rows; NULL (no rows) becomes 0 via
the float(total or 0) coercion. -/
def annual_consumption (txns : List InventoryTransaction) (id0 : Nat) (ref : ℚ) : ℚ :=
  ((txns.filter (fun t => issueMatch t id0 ref)).map InventoryTransaction.quantity).sum

/-- The aggregation rule as the specification states it: issue
transactions in the half-open window from ref - 365 up to but excluding
the reference instant.  Stated only for comparison with
annual_consumption. -/
def annual_consumption_claimed (txns : List InventoryTransaction) (id0 : Nat) (ref : ℚ) : ℚ :=
  ((txns.filter (fun t =>
      t.item_id == id0 && t.transaction_type == "issue" &&
        decide (ref - 365 ≤ t.transaction_date) &&
        decide (t.transaction_date < ref))).map InventoryTransaction.quantity).sum

/-- consumption_rate: annual_consumption / max(current_stock, 1) when
current_stock > 0, else 0. -/
def consumption_rate (current_stock annual : ℚ) : ℚ :=
  if current_stock > 0 then annual / max current_stock 1 else 0

/-- projected_annual: 10 percent growth buffer over history when the
rate is positive, else the default projection min_stock * 2. -/
def projected_annual (min_stock annual rate : ℚ) : ℚ :=
  if rate > 0 then annual * (11/10) else min_stock * 2

/-- monthly_projected = projected_annual / 12. -/
def monthly_projected (pa : ℚ) : ℚ :=
  pa / 12

/-- months_to_min: max((current_stock - min_stock) / monthly, 0) when
monthly > 0, else the 999 sentinel. -/
def months_to_min (current_stock min_stock monthly : ℚ) : ℚ :=
  if monthly > 0 then max ((current_stock - min_stock) / monthly) 0 else 999

/-- reorder_date: now + int(months_to_min * 30) days when
months_to_min <= 12, else None. -/
def reorder_date_calc (ref m : ℚ) : Option ℚ :=
  if m ≤ 12 then some (ref + (intTrunc (m * 30) : ℚ)) else none

/-- recommended_qty: max(int(projected_annual * 0.25),
min_stock - current_stock) when months_to_min <= 3, else 0. -/
def recommended_qty (pa current_stock min_stock m : ℚ) : ℚ :=
  if m ≤ 3 then max ((intTrunc (pa * (1/4)) : ℤ) : ℚ) (min_stock - current_stock) else 0

/-- Rate produced by the pipeline for given stock and aggregate. -/
def rate_of (cs a : ℚ) : ℚ :=
  consumption_rate cs a

/-- Projected annual consumption produced by the pipeline. -/
def pa_of (cs ms a : ℚ) : ℚ :=
  projected_annual ms a (rate_of cs a)

/-- Monthly projected consumption produced by the pipeline. -/
def mp_of (cs ms a : ℚ) : ℚ :=
  monthly_projected (pa_of cs ms a)

/-- Months to minimum stock produced by the pipeline. -/
def m_of (cs ms a : ℚ) : ℚ :=
  months_to_min cs ms (mp_of cs ms a)

/-- The numeric fields of one forecast row. -/
structure ForecastFields where
  annual_consumption_rate : ℚ
  projected_annual_consumption : ℚ
  monthly_projected_consumption : ℚ
  months_to_min_stock : ℚ
  reorder_date : Option ℚ
  recommended_order_qty : ℚ
deriving DecidableEq

/-- The per-item loop body of run_forecast, from the consumption-rate
computation through the recommended order quantity. -/
def forecast_fields (cs ms a ref : ℚ) : ForecastFields :=
  { annual_consumption_rate := rate_of cs a
    projected_annual_consumption := pa_of cs ms a
    monthly_projected_consumption := mp_of cs ms a
    months_to_min_stock := m_of cs ms a
    reorder_date := reorder_date_calc ref (m_of cs ms a)
    recommended_order_qty := recommended_qty (pa_of cs ms a) cs ms (m_of cs ms a) }

/-- A row of the inventory_forecast table.  Its forecast_date column is
filled by the per-insert CURRENT_TIMESTAMP default, modelled by the
clock reading captured when the row is inserted. -/
structure ForecastRecord where
  item_id : Nat
  forecast_date : ℚ
  fields : ForecastFields
deriving DecidableEq

/-- Build the forecast row of one item. -/
def mk_record (item : Item) (txns : List InventoryTransaction) (ref : ℚ) (fd : ℚ) :
    ForecastRecord :=
  { item_id := item.id
    forecast_date := fd
    fields := forecast_fields item.current_stock item.min_stock
      (annual_consumption txns item.id ref) ref }

/-- The insert loop of run_forecast: one INSERT per item, in order; the
n-th insert is stamped with the clock reading at that insert. -/
def insert_loop (txns : List InventoryTransaction) (ref : ℚ) (clock : Nat → ℚ) :
    Nat → List Item → List ForecastRecord
  | _, [] => []
  | i, item :: rest =>
      mk_record item txns ref (clock i) :: insert_loop txns ref clock (i + 1) rest

/-- run_forecast over the stored forecast rows: when the item set is
empty the script prints a message and returns before touching the
forecast table (Bool false = nothing to forecast); otherwise the old
rows are deleted and one fresh row per item is inserted. -/
def run_forecast (items : List Item) (txns : List InventoryTransaction) (ref : ℚ)
    (clock : Nat → ℚ) (store : List ForecastRecord) :
    List ForecastRecord × Bool :=
  if items.isEmpty then (store, false)
  else (insert_loop txns ref clock 0 items, true)

/-- A clock frozen at one reading. -/
def const_clock (d : ℚ) : Nat → ℚ :=
  fun _ => d

/-- A clock that advances by one unit per insert. -/
def tick_clock : Nat → ℚ :=
  fun i => (i : ℚ)

/-- Modelled from the spec: the forecast_method tag is absent from the
script in src (only the reporting page reads the column), so it is
taken from section 4.2 of the specification: historical-trend when the
rate is positive, default-heuristic otherwise. -/
def forecast_method (rate : ℚ) : String :=
  if rate > 0 then "historical-trend" else "default-heuristic"

/-- Modelled from the spec: the confidence_level computation is absent
from the script in src (only the reporting page reads the column); the
specification fixes only the contract: a deterministic function of the
projection inputs, valued in the unit interval, with default-heuristic
projections scoring strictly below historical-trend projections. -/
def confidence_level (cs a : ℚ) : ℚ :=
  if consumption_rate cs a > 0 then 9/10 else 1/2

end Inventory

namespace Inventory

/-- The rate is never negative when the aggregate is non-negative. -/
lemma consumption_rate_nonneg (cs a : ℚ) (ha : 0 ≤ a) : 0 ≤ consumption_rate cs a := by
  rw [consumption_rate]
  split_ifs with h
  · exact div_nonneg ha (le_trans zero_le_one (le_max_right cs 1))
  · exact le_refl 0

/-- A positive rate forces a positive aggregate. -/
lemma consumption_rate_pos_aggregate (cs a : ℚ) (ha : 0 ≤ a)
    (h : 0 < consumption_rate cs a) : 0 < a := by
  rw [consumption_rate] at h
  split_ifs at h with hcs
  · by_contra h0
    push_neg at h0
    have haz : a = 0 := le_antisymm h0 ha
    rw [haz, zero_div] at h
    exact lt_irrefl 0 h
  · exact absurd h (lt_irrefl 0)

/-- The inserted records carry the item ids in order. -/
lemma insert_loop_map_item_id (txns : List InventoryTransaction) (ref : ℚ)
    (clock : Nat → ℚ) :
    ∀ (items : List Item) (i : Nat),
      (insert_loop txns ref clock i items).map ForecastRecord.item_id = items.map Item.id := by
  intro items
  induction items with
  | nil => intro i; rfl
  | cons a l ih => intro i; simp [insert_loop, mk_record, ih (i + 1)]

/-- Under a frozen clock every inserted record is stamped with the same
forecast date. -/
lemma insert_loop_forecast_date (txns : List InventoryTransaction) (ref d : ℚ)
    (clock : Nat → ℚ) (hclock : ∀ i, clock i = d) :
    ∀ (items : List Item) (i : Nat) (r : ForecastRecord),
      r ∈ insert_loop txns ref clock i items → r.forecast_date = d := by
  intro items
  induction items with
  | nil => intro i r hr; cases hr
  | cons a l ih =>
      intro i r hr
      rw [insert_loop, List.mem_cons] at hr
      rcases hr with hr | hr
      · rw [hr]
        simp [mk_record, hclock i]
      · exact ih (i + 1) r hr

end Inventory

/-- Claim C1: for every item, the annual consumption rate is
annual_consumption divided by max(current_stock, 1) when current_stock
is positive, and 0 when current_stock is 0; in particular an item with
zero stock gets a stored rate of 0 regardless of transaction history. -/
theorem Inventory.C1_consumption_rate (cs a ref fd : ℚ)
    (txns : List Inventory.InventoryTransaction) (item : Inventory.Item) :
    (cs > 0 → Inventory.consumption_rate cs a = a / max cs 1) ∧
    (cs = 0 → Inventory.consumption_rate cs a = 0) ∧
    (item.current_stock = 0 →
      (Inventory.mk_record item txns ref fd).fields.annual_consumption_rate = 0) := by
  refine ⟨fun h => ?_, fun h => ?_, fun h => ?_⟩
  · rw [Inventory.consumption_rate, if_pos h]
  · rw [Inventory.consumption_rate, if_neg (by rw [h]; exact lt_irrefl 0)]
  · rw [Inventory.mk_record]
    simp only [Inventory.forecast_fields, Inventory.rate_of]
    rw [Inventory.consumption_rate, if_neg (by rw [h]; exact lt_irrefl 0)]

/-- Witness for C1 at stock 10, stock 0, and a zero-stock item row. -/
theorem Inventory.C1_consumption_rate_witness :
    Inventory.consumption_rate 10 7 = 7 / max 10 1 ∧
    Inventory.consumption_rate 0 7 = 0 ∧
    (Inventory.mk_record ⟨1, "n", "c", 0, 5, "u"⟩ [] 0 0).fields.annual_consumption_rate = 0 := by
  refine ⟨?_, ?_, ?_⟩
  · exact (Inventory.C1_consumption_rate 10 7 0 0 [] ⟨1, "n", "c", 0, 5, "u"⟩).1 (by norm_num)
  · exact (Inventory.C1_consumption_rate 0 7 0 0 [] ⟨1, "n", "c", 0, 5, "u"⟩).2.1 rfl
  · exact (Inventory.C1_consumption_rate 0 7 0 0 [] ⟨1, "n", "c", 0, 5, "u"⟩).2.2 rfl

/-- Claim C2, Scenario B: current_stock 10, min_stock 50, no issue
transactions in the window: rate 0, method default-heuristic, projected
annual 100, monthly 100/12, months to minimum stock 0, recommended
order quantity 40. -/
theorem Inventory.C2_scenario_default_heuristic :
    Inventory.annual_consumption [] 1 0 = 0 ∧
    (Inventory.mk_record ⟨1, "b", "c", 10, 50, "u"⟩ [] 0 0).fields =
      { annual_consumption_rate := 0
        projected_annual_consumption := 100
        monthly_projected_consumption := 100/12
        months_to_min_stock := 0
        reorder_date := some 0
        recommended_order_qty := 40 } ∧
    Inventory.forecast_method
      (Inventory.mk_record ⟨1, "b", "c", 10, 50, "u"⟩ [] 0 0).fields.annual_consumption_rate =
      "default-heuristic" := by
  refine ⟨rfl, ?_, ?_⟩
  · norm_num [Inventory.mk_record, Inventory.annual_consumption, Inventory.forecast_fields,
      Inventory.rate_of, Inventory.pa_of, Inventory.mp_of, Inventory.m_of,
      Inventory.consumption_rate, Inventory.projected_annual, Inventory.monthly_projected,
      Inventory.months_to_min, Inventory.reorder_date_calc, Inventory.recommended_qty,
      Inventory.intTrunc]
  · norm_num [Inventory.mk_record, Inventory.annual_consumption, Inventory.forecast_fields,
      Inventory.rate_of, Inventory.consumption_rate, Inventory.forecast_method]

/-- Claim C7: on an empty item set the run is a no-op: it signals
nothing to forecast and leaves the stored forecast rows untouched. -/
theorem Inventory.C7_empty_items (txns : List Inventory.InventoryTransaction) (ref : ℚ)
    (clock : Nat → ℚ) (store : List Inventory.ForecastRecord) :
    Inventory.run_forecast [] txns ref clock store = (store, false) := by
  simp [Inventory.run_forecast]

/-- Claim C9: for stock at least 1 the floor divisor is the identity
and the rate is exactly annual over stock; for positive stock the floor
changes the divisor exactly when the stock is below 1. -/
theorem Inventory.C9_floor_divisor (cs a : ℚ) :
    (1 ≤ cs → max cs 1 = cs ∧ Inventory.consumption_rate cs a = a / cs) ∧
    (0 < cs → (max cs 1 ≠ cs ↔ cs < 1)) := by
  constructor
  · intro h
    have hm : max cs 1 = cs := max_eq_left h
    refine ⟨hm, ?_⟩
    rw [Inventory.consumption_rate, if_pos (lt_of_lt_of_le zero_lt_one h), hm]
  · intro hpos
    constructor
    · intro hne
      by_contra hlt
      push_neg at hlt
      exact hne (max_eq_left hlt)
    · intro hlt heq
      rw [max_eq_right (le_of_lt hlt)] at heq
      exact (ne_of_gt hlt) heq

/-- Witness for C9 at stock 5 and at the fractional stock one half. -/
theorem Inventory.C9_floor_divisor_witness :
    (max (5 : ℚ) 1 = 5 ∧ Inventory.consumption_rate 5 3 = 3 / 5) ∧
    max (1/2 : ℚ) 1 ≠ 1/2 := by
  constructor
  · exact (Inventory.C9_floor_divisor 5 3).1 (by norm_num)
  · exact ((Inventory.C9_floor_divisor (1/2) 3).2 (by norm_num)).mpr (by norm_num)

/-- Claim C6 (confidence model from the spec): the confidence level is
a deterministic function of the projection inputs valued in the unit
interval, and a default-heuristic projection scores strictly below a
historical-trend projection with positive consumption. -/
theorem Inventory.C6_confidence (cs a cs2 a2 : ℚ) :
    (0 ≤ Inventory.confidence_level cs a ∧ Inventory.confidence_level cs a ≤ 1) ∧
    (Inventory.forecast_method (Inventory.consumption_rate cs a) = "default-heuristic" →
      Inventory.forecast_method (Inventory.consumption_rate cs2 a2) = "historical-trend" →
      0 < a2 →
      Inventory.confidence_level cs a < Inventory.confidence_level cs2 a2) := by
  have hs : ("historical-trend" : String) ≠ "default-heuristic" := by decide
  constructor
  · rw [Inventory.confidence_level]
    split_ifs <;> norm_num
  · intro h1 h2 _
    have hr1 : ¬ Inventory.consumption_rate cs a > 0 := by
      intro hgt
      rw [Inventory.forecast_method, if_pos hgt] at h1
      exact hs h1
    have hr2 : Inventory.consumption_rate cs2 a2 > 0 := by
      by_contra hng
      rw [Inventory.forecast_method, if_neg hng] at h2
      exact hs h2.symm
    rw [Inventory.confidence_level, if_neg hr1, Inventory.confidence_level, if_pos hr2]
    norm_num

/-- Witness for C6: zero history against a positive history. -/
theorem Inventory.C6_confidence_witness :
    Inventory.confidence_level 10 0 < Inventory.confidence_level 10 12 := by
  exact (Inventory.C6_confidence 10 0 10 12).2
    (by norm_num [Inventory.forecast_method, Inventory.consumption_rate])
    (by norm_num [Inventory.forecast_method, Inventory.consumption_rate])
    (by norm_num)

/-- Counterexample to claim C3: at reference instant 1001.5 days the
claimed half-open window is from 636.5 to 1001.5, but the query counts
an issue transaction dated 636.4 (the lower bound is truncated to a
calendar date) and an issue transaction dated 1002 (the query has no
upper bound), so the code aggregate is 12 where the claim demands 0. -/
theorem Inventory.C3_counterexample :
    Inventory.annual_consumption
      [⟨1, "issue", 5, 3182/5⟩, ⟨1, "issue", 7, 1002⟩] 1 (2003/2) = 12 ∧
    Inventory.annual_consumption_claimed
      [⟨1, "issue", 5, 3182/5⟩, ⟨1, "issue", 7, 1002⟩] 1 (2003/2) = 0 ∧
    (12 : ℚ) ≠ 0 := by
  refine ⟨?_, ?_, by norm_num⟩
  · norm_num [Inventory.annual_consumption, Inventory.issueMatch, Inventory.windowStart,
      List.filter]
  · norm_num [Inventory.annual_consumption_claimed, List.filter]

/-- Claim C3 as amended: a transaction contributes to the aggregate
exactly when it belongs to the item, has type issue, and is dated at or
after midnight of the calendar day 365 days before the reference
instant; there is no upper bound, so transactions dated at or after the
reference instant are included. -/
theorem Inventory.C3_aggregation_amended (t : Inventory.InventoryTransaction)
    (txns : List Inventory.InventoryTransaction) (id0 : Nat) (ref : ℚ) :
    Inventory.annual_consumption [] id0 ref = 0 ∧
    Inventory.annual_consumption (t :: txns) id0 ref =
      (if t.item_id = id0 ∧ t.transaction_type = "issue" ∧
          ((Inventory.windowStart ref : ℚ) ≤ t.transaction_date)
        then t.quantity else 0) + Inventory.annual_consumption txns id0 ref := by
  constructor
  · rfl
  · by_cases h : t.item_id = id0 ∧ t.transaction_type = "issue" ∧
        ((Inventory.windowStart ref : ℚ) ≤ t.transaction_date)
    · have hb : Inventory.issueMatch t id0 ref = true := by
        simp [Inventory.issueMatch, h.1, h.2.1, h.2.2]
      simp [Inventory.annual_consumption, List.filter_cons, hb, h]
    · have hb : Inventory.issueMatch t id0 ref = false := by
        rw [Bool.eq_false_iff]
        intro hc
        apply h
        simpa [Inventory.issueMatch, and_assoc] using hc
      simp [Inventory.annual_consumption, List.filter_cons, hb, h]

/-- Counterexample to claim C4: for stock 100, minimum 20 and annual
consumption 2400 the pipeline yields months to minimum 4/11, within the
12-month horizon, and a reorder date 10 days after the reference, while
rounding 120/11 to the nearest day as the claim states would give 11
days: the code truncates instead of rounding. -/
theorem Inventory.C4_counterexample :
    (Inventory.forecast_fields 100 20 2400 0).months_to_min_stock = 4/11 ∧
    (Inventory.forecast_fields 100 20 2400 0).months_to_min_stock ≤ 12 ∧
    (Inventory.forecast_fields 100 20 2400 0).reorder_date = some 10 ∧
    ((0 : ℚ) + (Inventory.pythonRound
      ((Inventory.forecast_fields 100 20 2400 0).months_to_min_stock * 30) : ℚ)) = 11 ∧
    (Inventory.forecast_fields 100 20 2400 0).reorder_date ≠
      some ((0 : ℚ) + (Inventory.pythonRound
        ((Inventory.forecast_fields 100 20 2400 0).months_to_min_stock * 30) : ℚ)) := by
  have hm : (Inventory.forecast_fields 100 20 2400 0).months_to_min_stock = 4/11 := by
    norm_num [Inventory.forecast_fields, Inventory.m_of, Inventory.months_to_min,
      Inventory.mp_of, Inventory.pa_of, Inventory.monthly_projected,
      Inventory.projected_annual, Inventory.rate_of, Inventory.consumption_rate]
  have hr : (Inventory.forecast_fields 100 20 2400 0).reorder_date = some 10 := by
    norm_num [Inventory.forecast_fields, Inventory.m_of, Inventory.months_to_min,
      Inventory.mp_of, Inventory.pa_of, Inventory.monthly_projected,
      Inventory.projected_annual, Inventory.rate_of, Inventory.consumption_rate,
      Inventory.reorder_date_calc, Inventory.intTrunc]
  have hpr : ((0 : ℚ) + (Inventory.pythonRound ((4/11 : ℚ) * 30) : ℚ)) = 11 := by
    norm_num [Inventory.pythonRound]
  refine ⟨hm, by rw [hm]; norm_num, hr, by rw [hm]; exact hpr, ?_⟩
  rw [hm, hr, hpr]
  norm_num

/-- Claim C4 as amended: the reorder date is the reference date plus
the truncation toward zero of months_to_min times 30 days exactly when
months_to_min is at most 12, and is absent whenever months_to_min
exceeds 12. -/
theorem Inventory.C4_reorder_truncation (cs ms a ref : ℚ) :
    ((Inventory.forecast_fields cs ms a ref).months_to_min_stock ≤ 12 →
      (Inventory.forecast_fields cs ms a ref).reorder_date =
        some (ref + (Inventory.intTrunc
          ((Inventory.forecast_fields cs ms a ref).months_to_min_stock * 30) : ℚ))) ∧
    (12 < (Inventory.forecast_fields cs ms a ref).months_to_min_stock →
      (Inventory.forecast_fields cs ms a ref).reorder_date = none) := by
  constructor
  · intro h
    simp only [Inventory.forecast_fields] at h ⊢
    rw [Inventory.reorder_date_calc, if_pos h]
  · intro h
    simp only [Inventory.forecast_fields] at h ⊢
    rw [Inventory.reorder_date_calc, if_neg (not_le.mpr h)]

/-- Witness for the amended C4: a date inside the horizon and the 999
sentinel outside it. -/
theorem Inventory.C4_reorder_truncation_witness :
    (Inventory.forecast_fields 100 20 2400 0).reorder_date =
      some ((0 : ℚ) + (Inventory.intTrunc
        ((Inventory.forecast_fields 100 20 2400 0).months_to_min_stock * 30) : ℚ)) ∧
    (Inventory.forecast_fields 5 0 0 0).reorder_date = none := by
  constructor
  · exact (Inventory.C4_reorder_truncation 100 20 2400 0).1 (by
      norm_num [Inventory.forecast_fields, Inventory.m_of, Inventory.months_to_min,
        Inventory.mp_of, Inventory.pa_of, Inventory.monthly_projected,
        Inventory.projected_annual, Inventory.rate_of, Inventory.consumption_rate])
  · exact (Inventory.C4_reorder_truncation 5 0 0 0).2 (by
      norm_num [Inventory.forecast_fields, Inventory.m_of, Inventory.months_to_min,
        Inventory.mp_of, Inventory.pa_of, Inventory.monthly_projected,
        Inventory.projected_annual, Inventory.rate_of, Inventory.consumption_rate])

/-- Counterexample to claim C5: two items inserted while the timestamp
clock advances by one unit receive the distinct forecast dates 0 and 1,
so the records of one completed batch need not share one common
forecast date. -/
theorem Inventory.C5_counterexample :
    ((Inventory.run_forecast [⟨1, "a", "c", 10, 50, "u"⟩, ⟨2, "b", "c", 10, 50, "u"⟩]
        [] 0 Inventory.tick_clock []).1.map Inventory.ForecastRecord.forecast_date) = [0, 1] ∧
    (0 : ℚ) ≠ 1 := by
  constructor
  · norm_num [Inventory.run_forecast, Inventory.insert_loop, Inventory.mk_record,
      Inventory.tick_clock]
  · norm_num

/-- Claim C5 as amended: after a batch run over a non-empty item set
the store holds exactly the fresh records, one per item in order, with
nothing surviving from any earlier batch; each record is stamped with
the clock reading at its own insert, so all records share one common
forecast date when the clock reading does not change during the run. -/
theorem Inventory.C5_replace_batch (items : List Inventory.Item)
    (txns : List Inventory.InventoryTransaction) (ref d : ℚ) (clock : Nat → ℚ)
    (store : List Inventory.ForecastRecord)
    (hne : items ≠ []) (hclock : ∀ i, clock i = d) :
    ((Inventory.run_forecast items txns ref clock store).1.map
        Inventory.ForecastRecord.item_id = items.map Inventory.Item.id) ∧
    (∀ r ∈ (Inventory.run_forecast items txns ref clock store).1, r.forecast_date = d) ∧
    (Inventory.run_forecast items txns ref clock store).1 =
      (Inventory.run_forecast items txns ref clock []).1 := by
  have hemp : items.isEmpty = false := by
    cases items with
    | nil => exact absurd rfl hne
    | cons a l => rfl
  have hrw : ∀ (st : List Inventory.ForecastRecord),
      (Inventory.run_forecast items txns ref clock st).1 =
        Inventory.insert_loop txns ref clock 0 items := by
    intro st
    simp [Inventory.run_forecast, hemp]
  rw [hrw store, hrw []]
  refine ⟨Inventory.insert_loop_map_item_id txns ref clock items 0, ?_, rfl⟩
  intro r hr
  exact Inventory.insert_loop_forecast_date txns ref d clock hclock items 0 r hr

/-- Witness for the amended C5 on two items under a frozen clock. -/
theorem Inventory.C5_replace_batch_witness :
    ((Inventory.run_forecast [⟨1, "a", "c", 10, 50, "u"⟩, ⟨2, "b", "c", 10, 50, "u"⟩]
        [] 0 (Inventory.const_clock 5) []).1.map Inventory.ForecastRecord.item_id) = [1, 2] := by
  have h := Inventory.C5_replace_batch
    [⟨1, "a", "c", 10, 50, "u"⟩, ⟨2, "b", "c", 10, 50, "u"⟩] [] 0 5
    (Inventory.const_clock 5) [] (by simp) (fun i => rfl)
  simpa using h.1

/-- Claim C8: with a positive minimum stock and non-negative annual
consumption the projection and its monthly figure are strictly
positive, so the zero-divisor branch is never taken and months to
minimum stock is the clamped quotient; conversely the sentinel branch
forces minimum stock 0 and rate 0. -/
theorem Inventory.C8_sentinel_unreachable (cs ms a : ℚ) (ha : 0 ≤ a) (hms : 0 ≤ ms) :
    (0 < ms →
      0 < Inventory.pa_of cs ms a ∧ 0 < Inventory.mp_of cs ms a ∧
        Inventory.m_of cs ms a = max ((cs - ms) / Inventory.mp_of cs ms a) 0) ∧
    (¬ 0 < Inventory.mp_of cs ms a → ms = 0 ∧ Inventory.rate_of cs a = 0) := by
  constructor
  · intro hms3
    have hpa : 0 < Inventory.pa_of cs ms a := by
      rw [Inventory.pa_of, Inventory.projected_annual]
      split_ifs with hr
      · rw [Inventory.rate_of] at hr
        have ha2 : 0 < a := Inventory.consumption_rate_pos_aggregate cs a ha hr
        linarith
      · linarith
    have hmp : 0 < Inventory.mp_of cs ms a := by
      rw [Inventory.mp_of, Inventory.monthly_projected]
      linarith
    exact ⟨hpa, hmp, by rw [Inventory.m_of, Inventory.months_to_min, if_pos hmp]⟩
  · intro hmp
    have hr : ¬ Inventory.rate_of cs a > 0 := by
      intro hgt
      apply hmp
      have hgt2 : 0 < Inventory.consumption_rate cs a := by rw [← Inventory.rate_of]; exact hgt
      have ha2 : 0 < a := Inventory.consumption_rate_pos_aggregate cs a ha hgt2
      rw [Inventory.mp_of, Inventory.monthly_projected, Inventory.pa_of,
        Inventory.projected_annual, if_pos hgt]
      linarith
    have hrate : Inventory.rate_of cs a = 0 := by
      rw [Inventory.rate_of]
      rw [Inventory.rate_of] at hr
      exact le_antisymm (not_lt.mp hr) (Inventory.consumption_rate_nonneg cs a ha)
    refine ⟨?_, hrate⟩
    rw [Inventory.mp_of, Inventory.monthly_projected, Inventory.pa_of,
      Inventory.projected_annual, if_neg hr] at hmp
    push_neg at hmp
    linarith

/-- Witness for C8: strict positivity of the default projection at
stock 10 and minimum 50, and a zero rate in a sentinel case. -/
theorem Inventory.C8_sentinel_unreachable_witness :
    0 < Inventory.pa_of 10 50 0 ∧ Inventory.rate_of 5 0 = 0 := by
  constructor
  · exact ((Inventory.C8_sentinel_unreachable 10 50 0 (by norm_num) (by norm_num)).1
      (by norm_num)).1
  · exact ((Inventory.C8_sentinel_unreachable 5 0 0 (by norm_num) (by norm_num)).2
      (by norm_num [Inventory.mp_of, Inventory.monthly_projected, Inventory.pa_of,
        Inventory.projected_annual, Inventory.rate_of, Inventory.consumption_rate])).2

/-- Claim C10: whenever a reorder date is emitted it lies between the
reference date and the reference date plus 360 days inclusive. -/
theorem Inventory.C10_reorder_horizon (cs ms a ref d : ℚ)
    (h : (Inventory.forecast_fields cs ms a ref).reorder_date = some d) :
    ref ≤ d ∧ d ≤ ref + 360 := by
  simp only [Inventory.forecast_fields] at h
  rw [Inventory.reorder_date_calc] at h
  split_ifs at h with h12
  · have hd : ref + (Inventory.intTrunc (Inventory.m_of cs ms a * 30) : ℚ) = d :=
      Option.some.inj h
    have hm0 : 0 ≤ Inventory.m_of cs ms a := by
      rw [Inventory.m_of, Inventory.months_to_min]
      split_ifs
      · exact le_max_right _ _
      · norm_num
    have h30 : 0 ≤ Inventory.m_of cs ms a * 30 := by linarith
    have hub : Inventory.m_of cs ms a * 30 ≤ 360 := by linarith
    have htr : Inventory.intTrunc (Inventory.m_of cs ms a * 30) =
        ⌊Inventory.m_of cs ms a * 30⌋ := by
      rw [Inventory.intTrunc, if_pos h30]
    have hlo : (0 : ℤ) ≤ ⌊Inventory.m_of cs ms a * 30⌋ := Int.floor_nonneg.mpr h30
    have hloq : (0 : ℚ) ≤ (⌊Inventory.m_of cs ms a * 30⌋ : ℚ) := by exact_mod_cast hlo
    have hhi : (⌊Inventory.m_of cs ms a * 30⌋ : ℚ) ≤ Inventory.m_of cs ms a * 30 :=
      Int.floor_le _
    constructor
    · rw [← hd, htr]
      linarith
    · rw [← hd, htr]
      linarith

/-- Witness for C10: the Scenario B item gets reorder date equal to the
reference date itself. -/
theorem Inventory.C10_reorder_horizon_witness :
    (0 : ℚ) ≤ 0 ∧ (0 : ℚ) ≤ 0 + 360 := by
  exact Inventory.C10_reorder_horizon 10 50 0 0 0 (by
    norm_num [Inventory.forecast_fields, Inventory.reorder_date_calc, Inventory.m_of,
      Inventory.months_to_min, Inventory.mp_of, Inventory.pa_of, Inventory.monthly_projected,
      Inventory.projected_annual, Inventory.rate_of, Inventory.consumption_rate,
      Inventory.intTrunc])
